import Mathlib

/-
Verification of hass-lovelace-kindle-screensaver (src/index.js, src/config.js).

The development shallowly embeds the two pipeline files:
  * JS numbers are modelled by exact rationals (ℚ) where the claims are
    algebraic, and by Int where the values are integral (viewport sizes,
    rotations, battery levels, percent levels).  The JS remainder operator
    `%` truncates toward zero (the result carries the sign of the dividend);
    it is modelled by Int.tmod.
  * Fallible operations (browser calls, file reads, image decode/encode)
    are modelled with Except / Option; a JS try/catch is a `match` on the
    Except value.
  * The mutable per-process battery map `batteryStore` is modelled by a
    function `Nat → Option BatteryEntry` threaded through the handlers.
Each definition cites the line numbers of src/index.js or src/config.js
that it embeds.
-/

namespace HassKindle

/-- JS remainder `a % b`: truncated division remainder, sign of the dividend
(so `(-45) % 90 = -45` in JS).  Used by the rotation checks in index.js. -/
def jsMod (a b : Int) : Int := Int.tmod a b

/-- JS `Math.round x = ⌊x + 0.5⌋` (rounds halves toward +∞), on the exact
rational model of JS numbers.  Used at index.js lines 530-531. -/
def jsRound (x : ℚ) : Int := ⌊x + 1/2⌋

/-- Value of a decimal digit run, most significant first. -/
def digitsToNat (ds : List Char) : Nat :=
  ds.foldl (fun acc c => acc * 10 + (c.toNat - '0'.toNat)) 0

/-- Value of a hexadecimal digit run, most significant first. -/
def hexDigitsToNat (ds : List Char) : Nat :=
  ds.foldl (fun acc c =>
    acc * 16 +
      (if c.isDigit then c.toNat - '0'.toNat
       else if 'a' ≤ c ∧ c ≤ 'f' then c.toNat - 'a'.toNat + 10
       else c.toNat - 'A'.toNat + 10)) 0

/-- Is `c` a hexadecimal digit? -/
def isHexDigit (c : Char) : Bool :=
  c.isDigit || ('a' ≤ c && c ≤ 'f') || ('A' ≤ c && c ≤ 'F')

/-- JS `parseInt` (radix unspecified): skip leading whitespace, read an
optional sign, then either a `0x`/`0X` hexadecimal run or a decimal digit
run, ignoring every later character; `none` models the result `NaN`.
Used at index.js lines 140-143 (`batteryLevel` and the page number) and,
through the canonical percent strings, at lines 527-528. -/
def jsParseInt (s : String) : Option Int :=
  let cs := s.data.dropWhile Char.isWhitespace
  let signAndRest : Int × List Char :=
    match cs with
    | '-' :: t => (-1, t)
    | '+' :: t => (1, t)
    | t => (1, t)
  let sign := signAndRest.1
  match signAndRest.2 with
  | '0' :: 'x' :: t =>
      let ds := t.takeWhile isHexDigit
      if ds.isEmpty then some 0 else some (sign * hexDigitsToNat ds)
  | '0' :: 'X' :: t =>
      let ds := t.takeWhile isHexDigit
      if ds.isEmpty then some 0 else some (sign * hexDigitsToNat ds)
  | rest =>
      let ds := rest.takeWhile Char.isDigit
      if ds.isEmpty then none else some (sign * digitsToNat ds)

/-- Viewport dimensions of one target (config.js lines 23-27). -/
structure RenderingScreenSize where
  width : Int
  height : Int
deriving DecidableEq, Repr

/-- One entry of `config.pages` as built by `getPagesConfig` in config.js
lines 7-43.  `blackLevelPct`/`whiteLevelPct` record the integer `n` of the
canonical percent strings `"n%"` stored in `blackLevel`/`whiteLevel`
(defaults `"0%"`/`"100%"`, config.js lines 30-31): on such strings the JS
comparison with `'0%'`/`'100%'` is the comparison of `n` with `0`/`100`,
and `parseInt` returns `n`. -/
structure PageConfig where
  screenShotUrl : String
  imageFormat : String
  outputPath : String
  renderingDelay : Int
  renderingScreenSize : RenderingScreenSize
  grayscaleDepth : Int
  removeGamma : Bool
  blackLevelPct : Int
  whiteLevelPct : Int
  dither : Bool
  colorMode : String
  prefersColorScheme : String
  rotation : Int
  scaling : ℚ
  batteryWebHook : Option String
  saturation : ℚ
  contrast : ℚ
deriving DecidableEq, Repr

/-- The defaults of config.js lines 14-40 for a target with screenshot
path `"/"` (only the fields a theorem varies matter). -/
def defaultPageConfig : PageConfig where
  screenShotUrl := "/"
  imageFormat := "png"
  outputPath := "output/cover"
  renderingDelay := 0
  renderingScreenSize := { width := 600, height := 800 }
  grayscaleDepth := 8
  removeGamma := false
  blackLevelPct := 0
  whiteLevelPct := 100
  dither := false
  colorMode := "GrayScale"
  prefersColorScheme := "light"
  rotation := 0
  scaling := 1
  batteryWebHook := none
  saturation := 1
  contrast := 1

instance : Inhabited PageConfig := ⟨defaultPageConfig⟩

/-- The two fatal startup errors of the main IIFE (index.js lines 17-28). -/
inductive StartupError where
  | noPages
  | invalidRotation (rotation : Int)
deriving DecidableEq, Repr

/-- Startup validation, index.js lines 18-28: report `noPages` when no
target is configured, otherwise report the first target whose rotation
satisfies the JS test `rotation % 90 > 0`. -/
def startupError (pages : List PageConfig) : Option StartupError :=
  if pages.length = 0 then some .noPages
  else
    match pages.find? (fun p => jsMod p.rotation 90 > 0) with
    | some p => some (.invalidRotation p.rotation)
    | none => none

/-- Result of the main IIFE (index.js lines 17-68): either it returns early
on a validation error (no cron job armed, no HTTP server started), or it
arms the scheduler (daemon mode) / runs the single debug render and starts
the HTTP server. -/
inductive MainStartup where
  | aborted (err : StartupError)
  | serverStarted (debug : Bool)
deriving DecidableEq, Repr

/-- The main IIFE control flow around validation (index.js lines 17-68). -/
def mainStartup (pages : List PageConfig) (debug : Bool) : MainStartup :=
  match startupError pages with
  | some e => .aborted e
  | none => .serverStarted debug

/-- Effective capture viewport, index.js lines 414-426: start from the
configured width/height and swap them when the JS test
`rotation % 180 > 0` holds. -/
def effectiveSize (p : PageConfig) : RenderingScreenSize :=
  let size : RenderingScreenSize :=
    { width := p.renderingScreenSize.width, height := p.renderingScreenSize.height }
  if jsMod p.rotation 180 > 0 then { width := size.height, height := size.width }
  else size

/-- The `clip` argument of `page.screenshot` (index.js lines 473-482). -/
structure ScreenshotClip where
  x : Int
  y : Int
  width : Int
  height : Int
deriving DecidableEq, Repr

/-- Screenshot clip, index.js lines 477-481: origin `(0, 0)` spread with
the effective viewport size. -/
def screenshotClip (p : PageConfig) : ScreenshotClip :=
  { x := 0, y := 0, width := (effectiveSize p).width, height := (effectiveSize p).height }

/-- One operation of the sharp pipeline built by
`convertImageToKindleCompatiblePngAsync` (index.js lines 498-548). -/
inductive ImageOp where
  | gamma (g : ℚ)
  | rotate (deg : Int) (background : String)
  | grayscale
  | modulate (saturation : ℚ)
  | linear (a : ℚ) (b : ℚ)
  | sharpen (sigma : ℚ)
deriving DecidableEq, Repr

/-- The final sharp encode call of the pipeline.  The source only ever calls
`.png`, with an explicit compression level, the `palette` flag and an
optional forced colorspace (index.js lines 542-546). -/
inductive SharpOutput where
  | png (compressionLevel : Nat) (palette : Bool) (colorspace : Option String)
deriving DecidableEq, Repr

/-- The whole pipeline: filter chain followed by the encode call. -/
structure ConvertPlan where
  ops : List ImageOp
  output : SharpOutput
deriving DecidableEq, Repr

/-- The grayscale test used twice in the pipeline (index.js lines 514 and
542): `colorMode === 'GrayScale' || colorMode === 'Grayscale'`. -/
def isGrayscaleMode (p : PageConfig) : Bool :=
  p.colorMode = "GrayScale" || p.colorMode = "Grayscale"

/-- Parameters of the contrast `.linear` call, index.js lines 522-524:
skipped when `contrast === 1`, otherwise
`linear(contrast, -(128 * contrast) + 128)`. -/
def contrastLinearParams (contrast : ℚ) : Option (ℚ × ℚ) :=
  if contrast ≠ 1 then some (contrast, -(128 * contrast) + 128) else none

/-- Parameters of the black/white level `.linear` call, index.js lines
526-536, on the canonical percent strings (see `PageConfig`): enter when
`blackLevel !== '0%' || whiteLevel !== '100%'`, then apply only when
`blackLevel > 0 || whiteLevel < 1` with
`inputMin = Math.round(blackLevel * 255)`,
`inputMax = Math.round(whiteLevel * 255)`,
`multiplier = 255 / (inputMax - inputMin)`,
`offset = -inputMin * multiplier`. -/
def levelLinearParams (blPct wlPct : Int) : Option (ℚ × ℚ) :=
  if blPct ≠ 0 ∨ wlPct ≠ 100 then
    let blackLevel : ℚ := blPct / 100
    let whiteLevel : ℚ := wlPct / 100
    if blackLevel > 0 ∨ whiteLevel < 1 then
      let inputMin : Int := jsRound (blackLevel * 255)
      let inputMax : Int := jsRound (whiteLevel * 255)
      let multiplier : ℚ := 255 / ((inputMax : ℚ) - (inputMin : ℚ))
      some (multiplier, -(inputMin : ℚ) * multiplier)
    else none
  else none

/-- Per-channel semantics of sharp's `.linear(a, b)`: `v ↦ a * v + b`. -/
def linearApply (a b v : ℚ) : ℚ := a * v + b

/-- The contrast step of the pipeline as a per-channel pixel function
(index.js lines 522-524). -/
def contrastStep (contrast v : ℚ) : ℚ :=
  match contrastLinearParams contrast with
  | some ab => linearApply ab.1 ab.2 v
  | none => v

/-- The black/white level step of the pipeline as a per-channel pixel
function (index.js lines 526-536). -/
def levelStep (blPct wlPct : Int) (v : ℚ) : ℚ :=
  match levelLinearParams blPct wlPct with
  | some ab => linearApply ab.1 ab.2 v
  | none => v

/-- `convertImageToKindleCompatiblePngAsync`, index.js lines 498-549, as
the pipeline it builds.  Order of the conditionally appended operations and
the final encode call follow the source line by line. -/
def convertImageToKindleCompatiblePng (p : PageConfig) : ConvertPlan :=
  let ops : List ImageOp := []
  -- lines 505-507: if (pageConfig.removeGamma) image = image.gamma(1.0 / 2.2)
  let ops := if p.removeGamma then ops ++ [.gamma (1 / (22/10))] else ops
  -- lines 509-512: if (rotation !== 0) image = image.rotate(rotation, { background: '#ffffff' })
  let ops := if p.rotation ≠ 0 then ops ++ [.rotate p.rotation "#ffffff"] else ops
  -- lines 514-516: grayscale()
  let ops := if isGrayscaleMode p then ops ++ [.grayscale] else ops
  -- lines 518-520: if (saturation !== 1) image = image.modulate({ saturation })
  let ops := if p.saturation ≠ 1 then ops ++ [.modulate p.saturation] else ops
  -- lines 522-524: contrast
  let ops :=
    match contrastLinearParams p.contrast with
    | some ab => ops ++ [.linear ab.1 ab.2]
    | none => ops
  -- lines 526-536: black/white levels
  let ops :=
    match levelLinearParams p.blackLevelPct p.whiteLevelPct with
    | some ab => ops ++ [.linear ab.1 ab.2]
    | none => ops
  -- lines 538-540: if (pageConfig.dither) image = image.sharpen({ sigma: 0.5 })
  let ops := if p.dither then ops ++ [.sharpen (1/2)] else ops
  -- lines 542-546: grayscale → toColorspace('b-w').png({ compressionLevel: 9, palette: false });
  -- otherwise png({ compressionLevel: 9 }) (sharp's default palette is false)
  let output : SharpOutput :=
    if isGrayscaleMode p then .png 9 false (some "b-w")
    else .png 9 false none
  { ops := ops, output := output }

/-- Container formats an encode call can produce. -/
inductive EncodedFormat where
  | png
  | bmp
  | jpeg
deriving DecidableEq, Repr

/-- The container format the pipeline's encode call actually produces. -/
def encodedFormatOf : SharpOutput → EncodedFormat
  | .png _ _ _ => .png

/-- The encoding the claim (spec §4.2 step 9) asks for: the target's
requested `imageFormat` — PNG, BMP, or JPEG — with unrecognized format
strings falling back to PNG.  Stated from the spec's words for comparison
with the encode call of `convertImageToKindleCompatiblePng`. -/
def specRequestedEncoding (p : PageConfig) : EncodedFormat :=
  match p.imageFormat with
  | "png" => .png
  | "bmp" => .bmp
  | "jpeg" => .jpeg
  | "jpg" => .jpeg
  | _ => .png

/-- The level remap the claim (spec §4.2 step 7) asserts for every
configuration with `blackLevel < whiteLevel`:
`multiplier = 255 / (round(whiteLevel*255) - round(blackLevel*255))`,
`offset = -round(blackLevel*255) * multiplier`.  Stated from the spec's
words for comparison with `levelStep`. -/
def claimedLevelRemap (blPct wlPct : Int) (v : ℚ) : ℚ :=
  let inputMin : Int := jsRound ((blPct : ℚ) / 100 * 255)
  let inputMax : Int := jsRound ((wlPct : ℚ) / 100 * 255)
  let multiplier : ℚ := 255 / ((inputMax : ℚ) - (inputMin : ℚ))
  multiplier * v + (-(inputMin : ℚ) * multiplier)

/-- One entry of the in-memory `batteryStore` (index.js lines 14-15,
176-181): last reported level (`none` models the initial `null`) and the
charging flag. -/
structure BatteryEntry where
  batteryLevel : Option Int
  isCharging : Bool
deriving DecidableEq, Repr

/-- The whole `batteryStore` object, keyed by 0-based page index. -/
def BatteryMap : Type := Nat → Option BatteryEntry

/-- Point update of the battery map (JS `batteryStore[pageIndex] = e`). -/
def BatteryMap.set (m : BatteryMap) (idx : Nat) (e : BatteryEntry) : BatteryMap :=
  fun j => if j = idx then some e else m j

/-- The battery-related `console.log` events of `handleImageRequest`
(index.js lines 185-187, 194, 199). -/
inductive LogEvent where
  | newBatteryLevel (level : Int)
  | chargingStarted
  | chargingStopped
deriving DecidableEq, Repr

/-- Battery telemetry block of `handleImageRequest`, index.js lines
175-202, reached only after the artifact file was served: lazily create
the entry with `batteryLevel: null, isCharging: false`; when
`!isNaN(batteryLevel) && batteryLevel >= 0 && batteryLevel <= 100`, store a
changed level (with a log line) and then run the `Yes`/`1` versus `No`/`0`
charging transition if/else-if. -/
def updateBatteryStore (store : BatteryMap) (pageIndex : Nat)
    (batteryLevelParam isChargingParam : Option String) :
    BatteryMap × List LogEvent :=
  -- line 140: parseInt of a missing query parameter is NaN
  let batteryLevel : Option Int := batteryLevelParam.bind jsParseInt
  -- lines 175-181: lazy creation of the entry
  let entry0 : BatteryEntry := (store pageIndex).getD { batteryLevel := none, isCharging := false }
  match batteryLevel with
  | some l =>
    if 0 ≤ l ∧ l ≤ 100 then
      -- lines 183-188: level transition
      let levelStep : BatteryEntry × List LogEvent :=
        if some l ≠ entry0.batteryLevel then
          ({ entry0 with batteryLevel := some l }, [.newBatteryLevel l])
        else (entry0, [])
      let entry1 := levelStep.1
      -- lines 190-201: charging transition (if / else-if)
      let chargeStep : BatteryEntry × List LogEvent :=
        if (isChargingParam = some "Yes" ∨ isChargingParam = some "1") ∧ entry1.isCharging ≠ true then
          ({ entry1 with isCharging := true }, [.chargingStarted])
        else if (isChargingParam = some "No" ∨ isChargingParam = some "0") ∧ entry1.isCharging ≠ false then
          ({ entry1 with isCharging := false }, [.chargingStopped])
        else (entry1, [])
      (store.set pageIndex chargeStep.1, levelStep.2 ++ chargeStep.2)
    else (store.set pageIndex entry0, [])
  | none => (store.set pageIndex entry0, [])

/-- Stat/content of one artifact file, as read by `fs.readFile`/`fs.stat`
(index.js lines 163-164). -/
structure FileData where
  byteLength : Nat
  mtime : String
deriving DecidableEq, Repr

/-- The slice of an HTTP response the image handler produces (index.js
lines 150-151, 168-173, 205-206). -/
structure HttpResponse where
  status : Nat
  contentType : Option String
  contentLength : Option Nat
  lastModified : Option String
deriving DecidableEq, Repr

/-- Page number extraction, index.js lines 142-143:
`pathname === "/" ? 1 : parseInt(pathname.substring(1))`;
`none` models NaN (`isFinite(pageNumber) === false`). -/
def parsePageNumber (pathname : String) : Option Int :=
  if pathname = "/" then some 1 else jsParseInt (pathname.drop 1)

/-- `handleImageRequest`, index.js lines 135-208: validate the page
number (400 on failure), read the artifact file at
`outputPath + "." + imageFormat` (the catch answers 404 when that read
throws, and then the battery block is never reached), otherwise answer 200
with `image/{format}`, `Content-Length` and `Last-Modified` headers and
run the battery telemetry block.  `artifacts` maps a file path to its
stat/content when readable. -/
def handleImageRequest (pages : List PageConfig)
    (artifacts : String → Option FileData) (store : BatteryMap)
    (pathname : String) (batteryLevelParam isChargingParam : Option String) :
    HttpResponse × BatteryMap × List LogEvent :=
  match parsePageNumber pathname with
  | none =>
    -- lines 144-153: isFinite(pageNumber) === false
    ({ status := 400, contentType := none, contentLength := none, lastModified := none }, store, [])
  | some pageNumber =>
    if pageNumber > pages.length ∨ pageNumber < 1 then
      ({ status := 400, contentType := none, contentLength := none, lastModified := none }, store, [])
    else
      let pageIndex : Nat := (pageNumber - 1).toNat
      let configPage := pages.getD pageIndex defaultPageConfig
      let outputPathWithExtension := configPage.outputPath ++ "." ++ configPage.imageFormat
      match artifacts outputPathWithExtension with
      | none =>
        -- lines 203-207: fs.readFile threw, catch answers 404
        ({ status := 404, contentType := none, contentLength := none, lastModified := none }, store, [])
      | some fd =>
        let updated := updateBatteryStore store pageIndex batteryLevelParam isChargingParam
        ({ status := 200,
           contentType := some ("image/" ++ configPage.imageFormat),
           contentLength := some fd.byteLength,
           lastModified := some fd.mtime }, updated.1, updated.2)

/-- Outcome oracle for the awaited browser operations of one capture
session (`renderUrlToImageAsync`, index.js lines 391-496): for each call,
whether it returns normally (`true`) or throws (`false`).  The screenshot
call is the one that writes the temporary file. -/
structure CaptureOracle where
  newPageOk : Bool
  emulateTimezoneOk : Bool
  emulateMediaOk : Bool
  setViewportOk : Bool
  gotoOk : Bool
  waitForSelectorOk : Bool
  addStyleTagOk : Bool
  screenshotOk : Bool
deriving DecidableEq, Repr

/-- The oracle with every browser call succeeding. -/
def CaptureOracle.allOk : CaptureOracle where
  newPageOk := true
  emulateTimezoneOk := true
  emulateMediaOk := true
  setViewportOk := true
  gotoOk := true
  waitForSelectorOk := true
  addStyleTagOk := true
  screenshotOk := true

/-- The body of the `try` of `renderUrlToImageAsync` (index.js lines
394-484): the awaited calls in source order; the first throw aborts the
sequence; reaching the end means `page.screenshot` wrote the temporary
file. -/
def captureSteps (o : CaptureOracle) : Except String Unit := do
  if !o.newPageOk then throw "newPage failed"                 -- line 394
  if !o.emulateTimezoneOk then throw "emulateTimezone failed" -- line 405
  if !o.emulateMediaOk then throw "emulateMediaFeatures failed" -- line 407
  if !o.setViewportOk then throw "setViewport failed"         -- line 426
  if !o.gotoOk then throw "goto timed out"                    -- line 429
  if !o.waitForSelectorOk then throw "waitForSelector timed out" -- line 435
  if !o.addStyleTagOk then throw "addStyleTag failed"         -- line 459
  if !o.screenshotOk then throw "screenshot failed"           -- line 473
  pure ()

/-- `renderUrlToImageAsync`, index.js lines 391-496: the whole `try` body
runs under a `catch` that only logs (lines 485-486), and the `finally`
closes the page with its own inner try/catch (lines 487-495) — so the
function never throws past its boundary.  It returns whether the temporary
file now exists (true exactly when every step up to the screenshot
succeeded). -/
def renderUrlToImageAsync (o : CaptureOracle) : Bool :=
  match captureSteps o with
  | .ok _ => true
  | .error _ => false

/-- Per-target outcome oracle for one render cycle: the capture session's
browser calls and whether the sharp decode/encode of
`convertImageToKindleCompatiblePngAsync` succeeds for that target. -/
structure TargetOutcome where
  capture : CaptureOracle
  convertOk : Bool
deriving DecidableEq, Repr

/-- Mutable world state the orchestrator touches: per-index artifact file
content (`some stamp` = the file exists with that content), per-index
existence of the `.temp` sibling, and the battery map (read at index.js
lines 303 and 335-345, never written by the orchestrator). -/
structure OrchestratorState where
  artifacts : Nat → Option Nat
  temps : Nat → Bool
  battery : BatteryMap

/-- Body of the per-target loop iteration of `renderAndConvertAsync`
(index.js lines 301-346) for target `i`: render to the temporary path,
then `try { fs.access(temp); convert; fs.unlink(temp) } catch { best-effort
unlink }` (lines 315-333).  `stamp` is the content the conversion writes
on success. -/
def processTarget (stamp : Nat) (outcome : TargetOutcome)
    (st : OrchestratorState) (i : Nat) : OrchestratorState :=
  -- line 313: renderUrlToImageAsync never throws; afterwards the temp file
  -- exists iff the capture session reached the screenshot
  let tempExists := renderUrlToImageAsync outcome.capture
  if tempExists then
    if outcome.convertOk then
      -- lines 317-325: access succeeds, conversion writes the artifact,
      -- unlink removes the temp
      { st with
        artifacts := fun j => if j = i then some stamp else st.artifacts j,
        temps := fun j => if j = i then false else st.temps j }
    else
      -- lines 326-332: conversion threw; catch unlinks the temp and the
      -- previous artifact is untouched
      { st with temps := fun j => if j = i then false else st.temps j }
  else
    -- lines 316-332: fs.access threw (no temp file); catch's unlink is a
    -- no-op; the previous artifact is untouched
    { st with temps := fun j => if j = i then false else st.temps j }

/-- The loop of `renderAndConvertAsync` over an explicit list of target
indices. -/
def runTargets (stamp : Nat) (outcomes : Nat → TargetOutcome)
    (idxs : List Nat) (st : OrchestratorState) : OrchestratorState :=
  idxs.foldl (fun s i => processTarget stamp (outcomes i) s i) st

/-- `renderAndConvertAsync`, index.js lines 298-359: iterate the targets in
configured order (`for (let pageIndex = 0; pageIndex < config.pages.length;
pageIndex++)`), each iteration isolated by its own try/catch as modelled by
`processTarget`. -/
def renderAndConvertAsync (pages : List PageConfig) (stamp : Nat)
    (outcomes : Nat → TargetOutcome) (st : OrchestratorState) : OrchestratorState :=
  runTargets stamp outcomes (List.range pages.length) st

/-- The fixed config root directory (index.js line 12): the default
`path.join(__dirname, "kindle-config")` with `__dirname = /app`
(Dockerfile `WORKDIR /app`). -/
def CONFIG_DIR : String := "/app/kindle-config"

/-- What `fs.stat`/`fs.readFile` find at a path: a regular file with its
content and mtime, a directory, nothing (`ENOENT`), or another I/O
error. -/
inductive FsNode where
  | file (content : String) (mtime : String)
  | dir
  | absent
  | ioError
deriving DecidableEq, Repr

/-- Does the character list `s` contain `pat` as a contiguous run?  Models
JS `String.prototype.includes` at index.js line 77. -/
def containsSubAux : List Char → List Char → Bool
  | [], pat => pat.isEmpty
  | s@(_ :: rest), pat => List.isPrefixOf pat s || containsSubAux rest pat

/-- JS `s.includes(pat)`. -/
def containsSubstring (s pat : String) : Bool := containsSubAux s.data pat.data

/-- JS `s.includes(c)` for a single character. -/
def strContainsChar (s : String) (c : Char) : Bool := s.data.contains c

/-- JS `s.startsWith(pre)` (index.js line 88). -/
def strStartsWith (s pre : String) : Bool := List.isPrefixOf pre.data s.data

/-- Node `path.isAbsolute` on POSIX: the path starts with `/`. -/
def isAbsolutePath (p : String) : Bool := strStartsWith p "/"

/-- Split a character list on a separator character; mirrors how Node path
functions cut a POSIX path into segments. -/
def splitChars (sep : Char) : List Char → List (List Char)
  | [] => [[]]
  | c :: cs =>
    let rest := splitChars sep cs
    if c = sep then [] :: rest
    else
      match rest with
      | [] => [[c]]
      | g :: gs => (c :: g) :: gs

/-- Normalization step of Node `path.resolve`: drop empty and `.` segments,
let `..` pop the previous segment, keep the rest. -/
def resolveSegs (segs : List (List Char)) : List (List Char) :=
  segs.foldl
    (fun acc seg =>
      if seg = [] ∨ seg = ['.'] then acc
      else if seg = ['.', '.'] then acc.dropLast
      else acc ++ [seg]) []

/-- Join absolute-path segments back into a POSIX path string. -/
def joinSegs (segs : List (List Char)) : String :=
  String.mk ((segs.map (fun g => '/' :: g)).flatten)

/-- Node `path.resolve(base, p)` for an absolute `base` and a non-absolute
`p` (index.js lines 85-86): normalize the joined path. -/
def resolvePath (base p : String) : String :=
  joinSegs (resolveSegs (splitChars '/' (base ++ "/" ++ p).data))

/-- The containment test of index.js line 88:
`fullPath.startsWith(configDirResolved + path.sep) || fullPath === configDirResolved`. -/
def pathInsideRoot (fullPath configDirResolved : String) : Bool :=
  strStartsWith fullPath (configDirResolved ++ "/") || fullPath = configDirResolved

/-- Node `path.extname` (index.js line 108): the last `.`-suffix of the
final path segment; empty for dotfiles such as `.bashrc` and for segments
without a dot. -/
def extnameOf (p : String) : String :=
  let base := (splitChars '/' p.data).getLastD []
  let parts := splitChars '.' base
  if parts.length ≤ 1 then ""
  else if base.headD ' ' = '.' ∧ parts.length = 2 then ""
  else String.mk ('.' :: parts.getLastD [])

/-- JS `String.prototype.toLowerCase` for the ASCII extensions in play. -/
def lowerString (s : String) : String := String.mk (s.data.map Char.toLower)

/-- `getContentType`, index.js lines 211-228: extension table with
`application/octet-stream` fallback. -/
def getContentType (ext : String) : String :=
  match ext with
  | ".txt" => "text/plain"
  | ".json" => "application/json"
  | ".xml" => "application/xml"
  | ".html" => "text/html"
  | ".css" => "text/css"
  | ".js" => "application/javascript"
  | ".sh" => "text/plain"
  | ".conf" => "text/plain"
  | ".ini" => "text/plain"
  | ".cfg" => "text/plain"
  | ".yaml" => "text/yaml"
  | ".yml" => "text/yaml"
  | _ => "application/octet-stream"

/-- The slice of an HTTP response the config-file handler produces
(index.js lines 79-80, 90-91, 98-99, 113-119, 124-129). -/
structure ConfigResponse where
  status : Nat
  contentType : Option String
  contentLength : Option Nat
  lastModified : Option String
  cacheControl : Option String
deriving DecidableEq, Repr

/-- `handleConfigFileRequest`, index.js lines 71-132, on the already
URI-decoded sub-path after the `/config/` prefix (line 74): reject 403 on
a `..` substring, a backslash, or an absolute path (line 77); resolve
against the fixed root and reject 403 when the result leaves it (lines
85-93); then stat/read — a directory answers 404 (lines 96-101), `ENOENT`
answers 404 and any other I/O error 500 (lines 121-131), and a regular
file answers 200 with the extension-derived content type and a 5-minute
cache header (lines 103-119). -/
def handleConfigFileRequest (fsys : String → FsNode) (requestedPath : String) :
    ConfigResponse :=
  if containsSubstring requestedPath ".." || strContainsChar requestedPath '\\' ||
      isAbsolutePath requestedPath then
    { status := 403, contentType := none, contentLength := none,
      lastModified := none, cacheControl := none }
  else
    let fullPath := resolvePath CONFIG_DIR requestedPath
    let configDirResolved := resolvePath CONFIG_DIR ""
    if !pathInsideRoot fullPath configDirResolved then
      { status := 403, contentType := none, contentLength := none,
        lastModified := none, cacheControl := none }
    else
      match fsys fullPath with
      | .dir =>
        { status := 404, contentType := none, contentLength := none,
          lastModified := none, cacheControl := none }
      | .absent =>
        { status := 404, contentType := none, contentLength := none,
          lastModified := none, cacheControl := none }
      | .ioError =>
        { status := 500, contentType := none, contentLength := none,
          lastModified := none, cacheControl := none }
      | .file content mtime =>
        { status := 200,
          contentType := some (getContentType (lowerString (extnameOf fullPath))),
          contentLength := some content.length,
          lastModified := some mtime,
          cacheControl := some "public, max-age=300" }

/-- Does the sub-path contain a full parent-directory segment `..`?  This
is the condition the claim states for the 403 rejection; the source's test
at index.js line 77 is the broader substring test `includes('..')`. -/
def hasParentDirSegment (p : String) : Bool :=
  (splitChars '/' p.data).contains ['.', '.']

/- ------------------------------------------------------------------ -/
/- Concrete configurations and auxiliary predicates used by the        -/
/- claim theorems below                                                -/
/- ------------------------------------------------------------------ -/

/-- A target requesting JPEG output in full color, as configured by
`IMAGE_FORMAT=jpeg`, `COLOR_MODE=Color`. -/
def jpegRequestConfig : PageConfig :=
  { defaultPageConfig with imageFormat := "jpeg", colorMode := "Color" }

/-- A target rotated by -45 degrees (`ROTATION=-45`). -/
def rotationNeg45Config : PageConfig := { defaultPageConfig with rotation := -45 }

/-- A target rotated by -90 degrees (`ROTATION=-90`), 600×800 viewport. -/
def rotationNeg90Config : PageConfig := { defaultPageConfig with rotation := -90 }

/-- A target rotated by 90 degrees (`ROTATION=90`), 600×800 viewport. -/
def rotation90Config : PageConfig := { defaultPageConfig with rotation := 90 }

/-- A two-target configuration (`HA_SCREENSHOT_URL`, `HA_SCREENSHOT_URL_2`). -/
def twoPagesConfig : List PageConfig :=
  [defaultPageConfig,
   { defaultPageConfig with screenShotUrl := "/2", outputPath := "output/cover_2" }]

/-- An artifact map where only the first target's output file exists. -/
def coverOnlyArtifacts : String → Option FileData :=
  fun s => if s = "output/cover.png" then some { byteLength := 1234, mtime := "t0" } else none

/-- A three-target configuration (`HA_SCREENSHOT_URL` … `_3`). -/
def threePagesConfig : List PageConfig :=
  [defaultPageConfig,
   { defaultPageConfig with screenShotUrl := "/2", outputPath := "output/cover_2" },
   { defaultPageConfig with screenShotUrl := "/3", outputPath := "output/cover_3" }]

/-- The charging flag an HTTP client would observe for one battery map
slot (a missing entry reads as the lazily-created default, not charging). -/
def chargeView (o : Option BatteryEntry) : Bool :=
  (o.getD { batteryLevel := none, isCharging := false }).isCharging

/-- Every stored battery level lies in [0, 100]. -/
def BatteryMapWF (m : BatteryMap) : Prop :=
  ∀ i e, m i = some e → ∀ l, e.batteryLevel = some l → 0 ≤ l ∧ l ≤ 100

/-- The request carries no valid battery level: the `batteryLevel`
parameter is absent, NaN, or out of [0, 100]. -/
def invalidLevelParam (blP : Option String) : Prop :=
  ∀ l, blP.bind jsParseInt = some l → (l < 0 ∨ 100 < l)

/-- Per-target oracle for a three-target render cycle whose second target
fails its navigation (`page.goto` times out); the other two targets fully
succeed. -/
def middleFailureOutcomes : Nat → TargetOutcome :=
  fun i =>
    if i = 1 then { capture := { CaptureOracle.allOk with gotoOk := false }, convertOk := true }
    else { capture := CaptureOracle.allOk, convertOk := true }

/-- A three-target world state before a render cycle: target 1 has a
previous artifact (content 7), target 2 has none, target 2's temp file is
(spuriously) present, and no battery entries exist. -/
def threeTargetState : OrchestratorState where
  artifacts := fun j => if j = 0 then some 7 else if j = 1 then some 9 else none
  temps := fun _ => false
  battery := fun _ => none

/-- A config-directory tree holding the two regular files
`readme.txt` and `a..b.txt`. -/
def demoConfigTree : String → FsNode :=
  fun s =>
    if s = "/app/kindle-config/readme.txt" then .file "hello kindle" "t1"
    else if s = "/app/kindle-config/a..b.txt" then .file "dots" "t2"
    else .absent

/- ------------------------------------------------------------------ -/
/- Claim C8                                                            -/
/- ------------------------------------------------------------------ -/

/-- Claim C8: the post-processor's contrast step applies the per-channel
linear transform `output = input * contrast + (128 - 128 * contrast)`;
with `contrast = 1` the step is the identity on every pixel, and with
`contrast = 0` it maps every channel value of every pixel to 128. -/
theorem C8_contrast_transform (c v : ℚ) :
    contrastStep c v = c * v + (128 - 128 * c) ∧
    contrastStep 1 v = v ∧
    contrastStep 0 v = 128 := by
  refine ⟨?_, ?_, ?_⟩
  · by_cases hc : c = 1
    · subst hc
      simp [contrastStep, contrastLinearParams]
    · simp only [contrastStep, contrastLinearParams, if_pos hc, linearApply]
      ring
  · simp [contrastStep, contrastLinearParams]
  · norm_num [contrastStep, contrastLinearParams, linearApply]

/- ------------------------------------------------------------------ -/
/- Claim C1                                                            -/
/- ------------------------------------------------------------------ -/

/-- Claim C1 counterexample: a target whose `imageFormat` is `"jpeg"` — a
format the claim says the encoder honors — still gets a PNG encode call:
`convertImageToKindleCompatiblePngAsync` (index.js lines 542-546) never
dispatches on `imageFormat` (and never reads `grayscaleDepth`). -/
theorem C1_counterexample :
    specRequestedEncoding jpegRequestConfig = .jpeg ∧
    encodedFormatOf (convertImageToKindleCompatiblePng jpegRequestConfig).output = .png ∧
    EncodedFormat.jpeg ≠ EncodedFormat.png := by
  refine ⟨rfl, rfl, by decide⟩

/-- Claim C1 (amended): the final post-processing step always encodes PNG
with maximal compression (level 9) and `palette: false`; when grayscale
mode is set the single-channel `b-w` colorspace is forced; the target's
`imageFormat` and `grayscaleDepth` never influence the encode call. -/
theorem C1_encode_always_png (p : PageConfig) :
    (convertImageToKindleCompatiblePng p).output =
      (if isGrayscaleMode p then SharpOutput.png 9 false (some "b-w")
       else SharpOutput.png 9 false none) ∧
    encodedFormatOf (convertImageToKindleCompatiblePng p).output = .png := by
  refine ⟨rfl, ?_⟩
  cases h : (convertImageToKindleCompatiblePng p).output
  rfl

/- ------------------------------------------------------------------ -/
/- Claim C9                                                            -/
/- ------------------------------------------------------------------ -/

/-- Claim C9 counterexample: `blackLevel = "0%"`, `whiteLevel = "150%"` is
a configuration with blackLevel < whiteLevel, but the level step is the
identity — the guard `blackLevel > 0 || whiteLevel < 1` (index.js line
529) is false — while the remap the claim asserts (multiplier 255/383) is
not the identity at pixel value 255. -/
theorem C9_counterexample :
    levelStep 0 150 255 = 255 ∧
    claimedLevelRemap 0 150 255 ≠ 255 ∧
    (0 : Int) < 150 := by
  refine ⟨?_, ?_, by norm_num⟩
  · norm_num [levelStep, levelLinearParams]
  · norm_num [claimedLevelRemap, jsRound]

/-- Claim C9 (amended): the level-remap step is the identity when
blackLevel is 0% and whiteLevel is 100%; and for every configuration with
0 ≤ blackLevel < whiteLevel ≤ 100 (percent) it remaps pixel values
linearly with `multiplier = 255/(round(whiteLevel*255) -
round(blackLevel*255))` and `offset = -round(blackLevel*255) *
multiplier`.  Out-of-range percentages had to be excluded: there the
guard of index.js line 529 skips the remap (see the counterexample). -/
theorem C9_level_remap :
    (∀ v : ℚ, levelStep 0 100 v = v) ∧
    (∀ (blPct wlPct : Int) (v : ℚ), 0 ≤ blPct → blPct < wlPct → wlPct ≤ 100 →
      levelStep blPct wlPct v = claimedLevelRemap blPct wlPct v) := by
  constructor
  · intro v
    norm_num [levelStep, levelLinearParams]
  · intro blPct wlPct v h0 hlt h100
    by_cases hdef : blPct = 0 ∧ wlPct = 100
    · obtain ⟨hb, hw⟩ := hdef
      subst hb; subst hw
      have h1 : levelStep 0 100 v = v := by norm_num [levelStep, levelLinearParams]
      rw [h1]
      norm_num [claimedLevelRemap, jsRound]
    · have hcond : blPct ≠ 0 ∨ wlPct ≠ 100 := by tauto
      have hguard : (blPct : ℚ) / 100 > 0 ∨ (wlPct : ℚ) / 100 < 1 := by
        rcases lt_or_eq_of_le h0 with hpos | hzero
        · left
          positivity
        · right
          have hwlt : wlPct < 100 := by
            rcases lt_or_eq_of_le h100 with h | h
            · exact h
            · exact absurd ⟨hzero.symm, h⟩ hdef
          rw [div_lt_one (by norm_num)]
          exact_mod_cast hwlt
      simp only [levelStep, levelLinearParams, claimedLevelRemap, linearApply,
        if_pos hcond, if_pos hguard]

/-- Claim C9 witness: the amended statement at blackLevel 30%, whiteLevel
90%, pixel value 100, where the remap evaluates to 115/3. -/
theorem C9_witness :
    ((0 : Int) ≤ 30 ∧ (30 : Int) < 90 ∧ (90 : Int) ≤ 100) ∧
    levelStep 30 90 100 = claimedLevelRemap 30 90 100 ∧
    levelStep 30 90 100 = 115 / 3 :=
  ⟨by norm_num,
   C9_level_remap.2 30 90 100 (by norm_num) (by norm_num) (by norm_num),
   by norm_num [levelStep, levelLinearParams, linearApply, jsRound]⟩

/- ------------------------------------------------------------------ -/
/- Claim C3                                                            -/
/- ------------------------------------------------------------------ -/

/-- Claim C3 counterexample: -45 is not a multiple of 90 (under the JS
remainder and the Euclidean remainder alike), yet startup accepts a
configuration whose only target is rotated by -45 and starts the server:
the check `rotation % 90 > 0` (index.js line 23) is false for the negative
JS remainder `(-45) % 90 = -45`. -/
theorem C3_counterexample :
    jsMod (-45 : Int) 90 ≠ 0 ∧
    Int.emod (-45 : Int) 90 ≠ 0 ∧
    mainStartup [rotationNeg45Config] false = .serverStarted false := by
  refine ⟨by decide, by decide, rfl⟩

/-- Claim C3 (amended): startup aborts before serving — arming no
scheduler and starting no server — exactly when zero targets are
configured or some target's rotation has positive JS remainder modulo 90
(`rotation % 90 > 0`).  For nonnegative rotations this coincides with the
claim's "not a multiple of 90", but negative non-multiples such as -45
are accepted (see the counterexample). -/
theorem C3_startup_validation :
    (∀ (pages : List PageConfig) (debug : Bool),
      (∃ e, mainStartup pages debug = .aborted e) ↔
        (pages = [] ∨ ∃ p ∈ pages, jsMod p.rotation 90 > 0)) ∧
    (∀ r : Int, 0 ≤ r → (jsMod r 90 > 0 ↔ jsMod r 90 ≠ 0)) := by
  constructor
  · intro pages debug
    by_cases h0 : pages.length = 0
    · rw [List.length_eq_zero] at h0
      subst h0
      simp [mainStartup, startupError]
    · have h0' : pages.length ≠ 0 := h0
      cases hfind : pages.find? (fun p => jsMod p.rotation 90 > 0) with
      | none =>
        have hnone := List.find?_eq_none.mp hfind
        have hne : pages ≠ [] := by
          intro hcon; exact h0' (by simp [hcon])
        simp only [mainStartup, startupError, if_neg h0', hfind]
        constructor
        · rintro ⟨e, he⟩; cases he
        · rintro (hc | ⟨p, hp, hrot⟩)
          · exact absurd hc hne
          · exact absurd (by simpa using hrot) (by simpa using hnone p hp)
      | some p =>
        have hmem := List.mem_of_find?_eq_some hfind
        have hpred := List.find?_some hfind
        simp only [mainStartup, startupError, if_neg h0', hfind]
        constructor
        · intro _
          exact Or.inr ⟨p, hmem, by simpa using hpred⟩
        · intro _
          exact ⟨.invalidRotation p.rotation, rfl⟩
  · intro r hr
    have hnn : 0 ≤ jsMod r 90 := Int.tmod_nonneg 90 hr
    constructor
    · intro h; omega
    · intro h; omega

/-- Claim C3 witness: the amended statement at the empty configuration
(abort) and at rotation 180 (remainder equivalence for a nonnegative
rotation). -/
theorem C3_witness :
    (∃ e, mainStartup [] true = .aborted e) ∧
    (jsMod 180 90 > 0 ↔ jsMod 180 90 ≠ 0) :=
  ⟨(C3_startup_validation.1 [] true).mpr (Or.inl rfl),
   C3_startup_validation.2 180 (by decide)⟩

/- ------------------------------------------------------------------ -/
/- Claim C4                                                            -/
/- ------------------------------------------------------------------ -/

/-- Claim C4 counterexample: -90 is a multiple of 90 and `-90 mod 180 ≠ 0`
under both remainder conventions, yet the effective viewport is NOT
swapped (600×800 stays 600×800): the code's test `rotation % 180 > 0`
(index.js line 419) is false because the JS remainder of a negative
rotation is negative. -/
theorem C4_counterexample :
    jsMod (-90 : Int) 90 = 0 ∧
    jsMod (-90 : Int) 180 ≠ 0 ∧
    Int.emod (-90 : Int) 180 ≠ 0 ∧
    effectiveSize rotationNeg90Config = { width := 600, height := 800 } ∧
    screenshotClip rotationNeg90Config = { x := 0, y := 0, width := 600, height := 800 } := by
  refine ⟨by decide, by decide, by decide, rfl, rfl⟩

/-- Claim C4 (amended): the effective capture viewport swaps the
configured width and height iff the rotation's JS remainder modulo 180 is
positive (`rotation % 180 > 0`) — for nonnegative rotations this is the
claim's `r mod 180 ≠ 0`, while negative rotations (e.g. -90) never swap —
and the screenshot clip is origin (0,0) with exactly the effective
viewport size. -/
theorem C4_effective_viewport :
    (∀ p : PageConfig,
      effectiveSize p =
        (if jsMod p.rotation 180 > 0 then
          { width := p.renderingScreenSize.height, height := p.renderingScreenSize.width }
         else p.renderingScreenSize) ∧
      screenshotClip p =
        { x := 0, y := 0, width := (effectiveSize p).width, height := (effectiveSize p).height }) ∧
    (∀ r : Int, 0 ≤ r → (jsMod r 180 > 0 ↔ jsMod r 180 ≠ 0)) := by
  constructor
  · intro p
    constructor
    · rfl
    · rfl
  · intro r hr
    have hnn : 0 ≤ jsMod r 180 := Int.tmod_nonneg 180 hr
    constructor
    · intro h; omega
    · intro h; omega

/-- Claim C4 witness: the amended statement at rotation 90, where the
600×800 viewport is swapped to 800×600. -/
theorem C4_witness :
    effectiveSize rotation90Config = { width := 800, height := 600 } ∧
    (jsMod 90 180 > 0 ↔ jsMod 90 180 ≠ 0) :=
  ⟨((C4_effective_viewport.1 rotation90Config).1).trans (by decide),
   C4_effective_viewport.2 90 (by decide)⟩
/- ------------------------------------------------------------------ -/
/- Claim C6                                                            -/
/- ------------------------------------------------------------------ -/

/-- Claim C6: for every GET to `/` or `/{n}` — a parsed index that is
non-numeric (NaN), zero or negative (< 1), or greater than the number of
configured targets answers 400; a valid index whose artifact file cannot
be read answers 404; otherwise the answer is 200 with
`Content-Type: image/{format}`, `Content-Length` and `Last-Modified`
taken from the file. -/
theorem C6_image_request_statuses
    (pages : List PageConfig) (artifacts : String → Option FileData)
    (store : BatteryMap) (pathname : String) (blP icP : Option String) :
    (parsePageNumber pathname = none →
      (handleImageRequest pages artifacts store pathname blP icP).1.status = 400) ∧
    (∀ n : Int, parsePageNumber pathname = some n → n < 1 ∨ n > pages.length →
      (handleImageRequest pages artifacts store pathname blP icP).1.status = 400) ∧
    (∀ n : Int, parsePageNumber pathname = some n → 1 ≤ n → n ≤ pages.length →
      (artifacts ((pages.getD (n - 1).toNat defaultPageConfig).outputPath ++ "." ++
            (pages.getD (n - 1).toNat defaultPageConfig).imageFormat) = none →
        (handleImageRequest pages artifacts store pathname blP icP).1.status = 404) ∧
      (∀ fd : FileData,
        artifacts ((pages.getD (n - 1).toNat defaultPageConfig).outputPath ++ "." ++
            (pages.getD (n - 1).toNat defaultPageConfig).imageFormat) = some fd →
        (handleImageRequest pages artifacts store pathname blP icP).1 =
          { status := 200,
            contentType := some ("image/" ++ (pages.getD (n - 1).toNat defaultPageConfig).imageFormat),
            contentLength := some fd.byteLength,
            lastModified := some fd.mtime })) := by
  refine ⟨?_, ?_, ?_⟩
  · intro h
    simp only [handleImageRequest, h]
  · intro n hn hbad
    simp only [handleImageRequest, hn]
    rw [if_pos (Or.symm hbad)]
  · intro n hn h1 hlen
    have hcond : ¬(n > pages.length ∨ n < 1) := by omega
    constructor
    · intro hart
      simp only [handleImageRequest, hn]
      rw [if_neg hcond, hart]
    · intro fd hart
      simp only [handleImageRequest, hn]
      rw [if_neg hcond, hart]

/-- Claim C6 witness: with two targets configured, `/3` answers 400, `/1`
answers 404 while no artifact exists, and `/1` answers 200 with the
`image/png` content type once `output/cover.png` exists. -/
theorem C6_witness :
    (handleImageRequest twoPagesConfig (fun _ => none) (fun _ => none) "/3" none none).1.status = 400 ∧
    (handleImageRequest twoPagesConfig (fun _ => none) (fun _ => none) "/1" none none).1.status = 404 ∧
    (handleImageRequest twoPagesConfig coverOnlyArtifacts (fun _ => none) "/1" none none).1 =
      { status := 200, contentType := some "image/png", contentLength := some 1234,
        lastModified := some "t0" } :=
  ⟨(C6_image_request_statuses twoPagesConfig (fun _ => none) (fun _ => none) "/3" none none).2.1
      3 (by decide) (by decide),
   ((C6_image_request_statuses twoPagesConfig (fun _ => none) (fun _ => none) "/1" none none).2.2
      1 (by decide) (by decide) (by decide)).1 rfl,
   (((C6_image_request_statuses twoPagesConfig coverOnlyArtifacts (fun _ => none) "/1" none none).2.2
      1 (by decide) (by decide) (by decide)).2 { byteLength := 1234, mtime := "t0" }
      (by decide)).trans (by decide)⟩

/- ------------------------------------------------------------------ -/
/- Claim C5                                                            -/
/- ------------------------------------------------------------------ -/

/-- Claim C5 counterexample: a request with a valid target index (1 of 1)
and valid telemetry (`batteryLevel=42`, `isCharging=Yes`) whose artifact
file is missing answers 404 and does NOT update the Battery State — the
telemetry block of index.js lines 175-202 sits after the `fs.readFile`
whose throw jumps to the catch. -/
theorem C5_counterexample :
    parsePageNumber "/1" = some 1 ∧
    Option.bind (some "42") jsParseInt = some 42 ∧
    (handleImageRequest [defaultPageConfig] (fun _ => none) (fun _ => none)
        "/1" (some "42") (some "Yes")).1.status = 404 ∧
    (handleImageRequest [defaultPageConfig] (fun _ => none) (fun _ => none)
        "/1" (some "42") (some "Yes")).2.1 0 = none := by
  refine ⟨by decide, by decide, rfl, rfl⟩

/-- With a valid battery level the telemetry block stores exactly that
level, and the charging flag dictated by the `isCharging` parameter
(`Yes`/`1` forces true, `No`/`0` forces false, anything else keeps the
observable old flag). -/
lemma updateBatteryStore_valid_char (store : BatteryMap) (idx : Nat)
    (blP icP : Option String) (l : Int) (hbl : blP.bind jsParseInt = some l)
    (hr : 0 ≤ l ∧ l ≤ 100) :
    (updateBatteryStore store idx blP icP).1 idx =
      some { batteryLevel := some l,
             isCharging :=
               if icP = some "Yes" ∨ icP = some "1" then true
               else if icP = some "No" ∨ icP = some "0" then false
               else chargeView (store idx) } := by
  by_cases hc1 : icP = some "Yes" ∨ icP = some "1"
  · obtain h | h := hc1 <;> subst h <;>
      (cases hE : store idx with
       | none => simp [updateBatteryStore, hbl, hr, hE, chargeView, BatteryMap.set]
       | some e =>
         obtain ⟨olvl, ochg⟩ := e
         by_cases hlev : olvl = some l
         · subst hlev
           cases ochg <;>
             simp [updateBatteryStore, hbl, hr, hE, chargeView, BatteryMap.set]
         · cases ochg <;>
             simp [updateBatteryStore, hbl, hr, hE, chargeView, BatteryMap.set,
               eq_false (fun h2 => hlev (Eq.symm h2))])
  · by_cases hc2 : icP = some "No" ∨ icP = some "0"
    · obtain h | h := hc2 <;> subst h <;>
        (cases hE : store idx with
         | none => simp [updateBatteryStore, hbl, hr, hE, chargeView, BatteryMap.set]
         | some e =>
           obtain ⟨olvl, ochg⟩ := e
           by_cases hlev : olvl = some l
           · subst hlev
             cases ochg <;>
               simp [updateBatteryStore, hbl, hr, hE, chargeView, BatteryMap.set]
           · cases ochg <;>
               simp [updateBatteryStore, hbl, hr, hE, chargeView, BatteryMap.set,
                 eq_false (fun h2 => hlev (Eq.symm h2))])
    · cases hE : store idx with
      | none => simp [updateBatteryStore, hbl, hr, hE, hc1, hc2, chargeView, BatteryMap.set]
      | some e =>
        obtain ⟨olvl, ochg⟩ := e
        by_cases hlev : olvl = some l
        · subst hlev
          cases ochg <;>
            simp [updateBatteryStore, hbl, hr, hE, hc1, hc2, chargeView, BatteryMap.set]
        · cases ochg <;>
            simp [updateBatteryStore, hbl, hr, hE, hc1, hc2, chargeView, BatteryMap.set,
              eq_false (fun h => hlev (Eq.symm h))]

/-- Claim C5 (amended): for every image-family request with a valid index
whose artifact read succeeds (the 200 path), the handler's battery map and
log events are exactly those of the telemetry block; valid telemetry sets
the entry (level, and charging flag per `Yes`/`1` vs `No`/`0`), a fresh
entry logs both transitions, repeating already-stored values changes
nothing and logs no change event, and the render path never mutates the
battery map — the serving endpoint is the only mutator. -/
theorem C5_battery_update :
    (∀ (pages : List PageConfig) (artifacts : String → Option FileData)
        (store : BatteryMap) (pathname : String) (blP icP : Option String)
        (n : Int) (fd : FileData),
      parsePageNumber pathname = some n → 1 ≤ n → n ≤ pages.length →
      artifacts ((pages.getD (n - 1).toNat defaultPageConfig).outputPath ++ "." ++
          (pages.getD (n - 1).toNat defaultPageConfig).imageFormat) = some fd →
      (handleImageRequest pages artifacts store pathname blP icP).2 =
        updateBatteryStore store (n - 1).toNat blP icP) ∧
    (∀ (store : BatteryMap) (idx : Nat) (blP icP : Option String) (l : Int),
      blP.bind jsParseInt = some l → 0 ≤ l ∧ l ≤ 100 →
      icP = some "Yes" ∨ icP = some "1" →
      (updateBatteryStore store idx blP icP).1 idx =
        some { batteryLevel := some l, isCharging := true }) ∧
    (∀ (store : BatteryMap) (idx : Nat) (blP icP : Option String) (l : Int),
      blP.bind jsParseInt = some l → 0 ≤ l ∧ l ≤ 100 →
      icP = some "No" ∨ icP = some "0" →
      (updateBatteryStore store idx blP icP).1 idx =
        some { batteryLevel := some l, isCharging := false }) ∧
    (∀ (store : BatteryMap) (idx : Nat) (blP icP : Option String) (l : Int),
      blP.bind jsParseInt = some l → 0 ≤ l ∧ l ≤ 100 →
      icP = some "Yes" ∨ icP = some "1" →
      store idx = none →
      (updateBatteryStore store idx blP icP).2 =
        [.newBatteryLevel l, .chargingStarted]) ∧
    (∀ (store : BatteryMap) (idx : Nat) (blP icP : Option String) (l : Int),
      blP.bind jsParseInt = some l → 0 ≤ l ∧ l ≤ 100 →
      icP = some "Yes" ∨ icP = some "1" →
      store idx = some { batteryLevel := some l, isCharging := true } →
      (∀ j, (updateBatteryStore store idx blP icP).1 j = store j) ∧
      (updateBatteryStore store idx blP icP).2 = []) ∧
    (∀ (pages : List PageConfig) (stamp : Nat) (outcomes : Nat → TargetOutcome)
        (st : OrchestratorState),
      (renderAndConvertAsync pages stamp outcomes st).battery = st.battery) := by
  refine ⟨?_, ?_, ?_, ?_, ?_, ?_⟩
  · intro pages artifacts store pathname blP icP n fd hn h1 hlen hart
    have hcond : ¬(n > pages.length ∨ n < 1) := by omega
    simp only [handleImageRequest, hn]
    rw [if_neg hcond, hart]
  · intro store idx blP icP l hbl hr hic
    rw [updateBatteryStore_valid_char store idx blP icP l hbl hr]
    rcases hic with h | h <;> subst h <;> simp
  · intro store idx blP icP l hbl hr hic
    rw [updateBatteryStore_valid_char store idx blP icP l hbl hr]
    rcases hic with h | h <;> subst h <;> simp
  · intro store idx blP icP l hbl hr hic hnone
    rcases hic with h | h <;> subst h <;>
      simp [updateBatteryStore, hbl, hr, hnone]
  · intro store idx blP icP l hbl hr hic hstored
    rcases hic with h | h <;> subst h <;>
      exact ⟨fun j => by
          by_cases hj : j = idx
          · subst hj
            simp [updateBatteryStore, hbl, hr, hstored, BatteryMap.set]
          · simp [updateBatteryStore, hbl, hr, hstored, BatteryMap.set, hj],
        by simp [updateBatteryStore, hbl, hr, hstored]⟩
  · intro pages stamp outcomes st
    show (runTargets stamp outcomes (List.range pages.length) st).battery = st.battery
    generalize List.range pages.length = idxs
    induction idxs generalizing st with
    | nil => rfl
    | cons i is ih =>
      show (runTargets stamp outcomes is (processTarget stamp (outcomes i) st i)).battery = st.battery
      rw [ih]
      cases hc : renderUrlToImageAsync (outcomes i).capture <;>
        cases hk : (outcomes i).convertOk <;>
          simp [processTarget, hc, hk]

/-- Claim C5 witness: on an empty battery map, `batteryLevel=42`,
`isCharging=Yes` creates the entry `{42, charging}` with both transition
logs; repeating the same values changes nothing and logs nothing; the
200 path of a one-target request routes through the telemetry block; and
a render cycle leaves the battery map of `threeTargetState` unchanged. -/
theorem C5_witness :
    (updateBatteryStore (fun _ => none) 0 (some "42") (some "Yes")).1 0 =
      some { batteryLevel := some 42, isCharging := true } ∧
    (updateBatteryStore (fun _ => none) 0 (some "42") (some "Yes")).2 =
      [.newBatteryLevel 42, .chargingStarted] ∧
    (updateBatteryStore
        (fun j => if j = 0 then some { batteryLevel := some 42, isCharging := true } else none)
        0 (some "42") (some "Yes")).2 = [] ∧
    (handleImageRequest [defaultPageConfig] coverOnlyArtifacts (fun _ => none)
        "/1" (some "42") (some "Yes")).2 =
      updateBatteryStore (fun _ => none) 0 (some "42") (some "Yes") ∧
    (renderAndConvertAsync twoPagesConfig 3 middleFailureOutcomes threeTargetState).battery =
      threeTargetState.battery :=
  ⟨C5_battery_update.2.1 (fun _ => none) 0 (some "42") (some "Yes") 42
      (by decide) (by decide) (Or.inl rfl),
   C5_battery_update.2.2.2.1 (fun _ => none) 0 (some "42") (some "Yes") 42
      (by decide) (by decide) (Or.inl rfl) rfl,
   (C5_battery_update.2.2.2.2.1
      (fun j => if j = 0 then some { batteryLevel := some 42, isCharging := true } else none)
      0 (some "42") (some "Yes") 42 (by decide) (by decide) (Or.inl rfl) (by decide)).2,
   C5_battery_update.1 [defaultPageConfig] coverOnlyArtifacts (fun _ => none)
      "/1" (some "42") (some "Yes") 1 { byteLength := 1234, mtime := "t0" }
      (by decide) (by decide) (by decide) (by decide),
   C5_battery_update.2.2.2.2.2 twoPagesConfig 3 middleFailureOutcomes threeTargetState⟩

/- ------------------------------------------------------------------ -/
/- Claim C10                                                           -/
/- ------------------------------------------------------------------ -/

/-- The telemetry block never touches another index's slot. -/
lemma updateBatteryStore_other (store : BatteryMap) (idx : Nat)
    (blP icP : Option String) (i : Nat) (hj : i ≠ idx) :
    (updateBatteryStore store idx blP icP).1 i = store i := by
  rcases hbl : blP.bind jsParseInt with _ | l
  · simp [updateBatteryStore, hbl, BatteryMap.set, hj]
  · by_cases hr : 0 ≤ l ∧ l ≤ 100 <;>
      simp [updateBatteryStore, hbl, hr, BatteryMap.set, hj]

/-- The telemetry block never deletes an entry. -/
lemma updateBatteryStore_isSome (store : BatteryMap) (idx : Nat)
    (blP icP : Option String) (i : Nat) (hi : (store i).isSome) :
    ((updateBatteryStore store idx blP icP).1 i).isSome := by
  rcases hbl : blP.bind jsParseInt with _ | l
  · by_cases hj : i = idx <;>
      simp [updateBatteryStore, hbl, BatteryMap.set, hj, hi]
  · by_cases hr : 0 ≤ l ∧ l ≤ 100 <;> by_cases hj : i = idx <;>
      simp [updateBatteryStore, hbl, hr, BatteryMap.set, hj, hi]

/-- Without a valid battery level the telemetry block writes back the
lazily-created entry unchanged. -/
lemma updateBatteryStore_invalid (store : BatteryMap) (idx : Nat)
    (blP icP : Option String) (h : invalidLevelParam blP) :
    (updateBatteryStore store idx blP icP).1 =
      store.set idx ((store idx).getD { batteryLevel := none, isCharging := false }) := by
  rcases hbl : blP.bind jsParseInt with _ | l
  · simp [updateBatteryStore, hbl]
  · have hout := h l hbl
    have hnr : ¬(0 ≤ l ∧ l ≤ 100) := by omega
    simp [updateBatteryStore, hbl, hnr]

/-- With a valid battery level the entry stored at the requested index
carries exactly that level (some charging flag). -/
lemma updateBatteryStore_valid_at (store : BatteryMap) (idx : Nat)
    (blP icP : Option String) (l : Int) (hbl : blP.bind jsParseInt = some l)
    (hr : 0 ≤ l ∧ l ≤ 100) :
    ∃ b, (updateBatteryStore store idx blP icP).1 idx =
      some { batteryLevel := some l, isCharging := b } :=
  ⟨_, updateBatteryStore_valid_char store idx blP icP l hbl hr⟩

/-- The image handler either leaves the battery map alone (400 and 404
paths) or routes it through the telemetry block. -/
lemma handleImageRequest_store_cases (pages : List PageConfig)
    (artifacts : String → Option FileData) (store : BatteryMap)
    (pathname : String) (blP icP : Option String) :
    (handleImageRequest pages artifacts store pathname blP icP).2.1 = store ∨
    ∃ idx, (handleImageRequest pages artifacts store pathname blP icP).2.1 =
      (updateBatteryStore store idx blP icP).1 := by
  cases hn : parsePageNumber pathname with
  | none =>
    refine Or.inl ?_
    simp only [handleImageRequest, hn]
  | some n =>
    by_cases hcond : n > pages.length ∨ n < 1
    · refine Or.inl ?_
      simp only [handleImageRequest, hn]
      rw [if_pos hcond]
    · cases hart : artifacts ((pages.getD (n - 1).toNat defaultPageConfig).outputPath ++ "." ++
          (pages.getD (n - 1).toNat defaultPageConfig).imageFormat) with
      | none =>
        refine Or.inl ?_
        simp only [handleImageRequest, hn]
        rw [if_neg hcond, hart]
      | some fd =>
        refine Or.inr ⟨(n - 1).toNat, ?_⟩
        simp only [handleImageRequest, hn]
        rw [if_neg hcond, hart]

/-- Claim C10: the stored charging flag changes only when the same request
carries a valid battery level (without one, every slot's observable
charging flag is unchanged); every battery map satisfying the level
invariant still satisfies it after any request; and entries are never
deleted. -/
theorem C10_battery_state_invariants
    (pages : List PageConfig) (artifacts : String → Option FileData)
    (store : BatteryMap) (pathname : String) (blP icP : Option String) :
    (invalidLevelParam blP →
      ∀ i, chargeView ((handleImageRequest pages artifacts store pathname blP icP).2.1 i) =
        chargeView (store i)) ∧
    (BatteryMapWF store →
      BatteryMapWF (handleImageRequest pages artifacts store pathname blP icP).2.1) ∧
    (∀ i, (store i).isSome →
      ((handleImageRequest pages artifacts store pathname blP icP).2.1 i).isSome) := by
  rcases handleImageRequest_store_cases pages artifacts store pathname blP icP with
    heq | ⟨idx, heq⟩
  · rw [heq]
    exact ⟨fun _ i => rfl, fun h => h, fun i h => h⟩
  · rw [heq]
    refine ⟨?_, ?_, ?_⟩
    · intro hinv i
      rw [updateBatteryStore_invalid store idx blP icP hinv]
      by_cases hj : i = idx
      · subst hj
        cases hE : store i <;> simp [BatteryMap.set, chargeView, hE]
      · simp [BatteryMap.set, hj]
    · intro hWF
      rcases hbl : blP.bind jsParseInt with _ | l0
      · rw [updateBatteryStore_invalid store idx blP icP (fun l hl => by simp [hbl] at hl)]
        intro i e hi l hl
        by_cases hj : i = idx
        · subst hj
          simp only [BatteryMap.set, if_pos rfl, Option.some.injEq] at hi
          cases hE : store i with
          | none => rw [hE] at hi; simp at hi; rw [← hi] at hl; simp at hl
          | some e0 =>
            rw [hE] at hi
            simp at hi
            exact hWF i e0 hE l (by rw [hi]; exact hl)
        · simp only [BatteryMap.set, if_neg hj] at hi
          exact hWF i e hi l hl
      · by_cases hr : 0 ≤ l0 ∧ l0 ≤ 100
        · obtain ⟨b, hb⟩ := updateBatteryStore_valid_at store idx blP icP l0 hbl hr
          intro i e' hi l hl
          by_cases hj : i = idx
          · subst hj
            rw [hb] at hi
            injection hi with hi
            rw [← hi] at hl
            simp at hl
            omega
          · rw [updateBatteryStore_other store idx blP icP i hj] at hi
            exact hWF i e' hi l hl
        · rw [updateBatteryStore_invalid store idx blP icP
              (fun l hl => by rw [hbl] at hl; injection hl with h; omega)]
          intro i e hi l hl
          by_cases hj : i = idx
          · subst hj
            simp only [BatteryMap.set, if_pos rfl, Option.some.injEq] at hi
            cases hE : store i with
            | none => rw [hE] at hi; simp at hi; rw [← hi] at hl; simp at hl
            | some e0 =>
              rw [hE] at hi
              simp at hi
              exact hWF i e0 hE l (by rw [hi]; exact hl)
          · simp only [BatteryMap.set, if_neg hj] at hi
            exact hWF i e hi l hl
    · intro i hi
      exact updateBatteryStore_isSome store idx blP icP i hi

/-- Claim C10 witness: a request with `isCharging=Yes` but no valid
battery level (the artifact exists, the index is valid) leaves the
charging flag of a stored entry unchanged, preserves the level invariant,
and deletes no entry. -/
theorem C10_witness :
    (invalidLevelParam (some "abc") ∧
      BatteryMapWF (fun j => if j = 0 then some { batteryLevel := some 7, isCharging := false } else none)) ∧
    chargeView ((handleImageRequest [defaultPageConfig] coverOnlyArtifacts
        (fun j => if j = 0 then some { batteryLevel := some 7, isCharging := false } else none)
        "/1" (some "abc") (some "Yes")).2.1 0) =
      chargeView (some { batteryLevel := some 7, isCharging := false }) ∧
    BatteryMapWF ((handleImageRequest [defaultPageConfig] coverOnlyArtifacts
        (fun j => if j = 0 then some { batteryLevel := some 7, isCharging := false } else none)
        "/1" (some "abc") (some "Yes")).2.1) ∧
    ((handleImageRequest [defaultPageConfig] coverOnlyArtifacts
        (fun j => if j = 0 then some { batteryLevel := some 7, isCharging := false } else none)
        "/1" (some "abc") (some "Yes")).2.1 0).isSome := by
  have hinv : invalidLevelParam (some "abc") := by
    intro l hl
    simp [jsParseInt] at hl
  have hWF : BatteryMapWF
      (fun j => if j = 0 then some { batteryLevel := some 7, isCharging := false } else none) := by
    intro i e hi l hl
    by_cases hj : i = 0
    · subst hj
      simp at hi
      rw [← hi] at hl
      simp at hl
      omega
    · simp [hj] at hi
  have hcv := (C10_battery_state_invariants [defaultPageConfig] coverOnlyArtifacts
      (fun j => if j = 0 then some { batteryLevel := some 7, isCharging := false } else none)
      "/1" (some "abc") (some "Yes")).1 hinv 0
  refine ⟨⟨hinv, hWF⟩, ?_, ?_, ?_⟩
  · exact hcv.trans (by decide)
  · exact (C10_battery_state_invariants [defaultPageConfig] coverOnlyArtifacts
      (fun j => if j = 0 then some { batteryLevel := some 7, isCharging := false } else none)
      "/1" (some "abc") (some "Yes")).2.1 hWF
  · exact (C10_battery_state_invariants [defaultPageConfig] coverOnlyArtifacts
      (fun j => if j = 0 then some { batteryLevel := some 7, isCharging := false } else none)
      "/1" (some "abc") (some "Yes")).2.2 0 (by decide)

/- ------------------------------------------------------------------ -/
/- Claim C2                                                            -/
/- ------------------------------------------------------------------ -/

/-- One loop iteration never touches another target's artifact or temp. -/
lemma processTarget_other (stamp : Nat) (o : TargetOutcome)
    (st : OrchestratorState) (j i : Nat) (h : i ≠ j) :
    (processTarget stamp o st j).artifacts i = st.artifacts i ∧
    (processTarget stamp o st j).temps i = st.temps i := by
  cases hc : renderUrlToImageAsync o.capture <;> cases hk : o.convertOk <;>
    simp [processTarget, hc, hk, h]

/-- One loop iteration at the target's own index: the temp file is gone
afterwards, and the artifact is renewed exactly when both the capture and
the conversion succeeded (otherwise it is untouched). -/
lemma processTarget_self (stamp : Nat) (o : TargetOutcome)
    (st : OrchestratorState) (i : Nat) :
    (processTarget stamp o st i).temps i = false ∧
    (processTarget stamp o st i).artifacts i =
      (if renderUrlToImageAsync o.capture = true ∧ o.convertOk = true then some stamp
       else st.artifacts i) := by
  cases hc : renderUrlToImageAsync o.capture <;> cases hk : o.convertOk <;>
    simp [processTarget, hc, hk]

/-- Indices outside the processed list keep their artifact and temp. -/
lemma runTargets_notMem (stamp : Nat) (outcomes : Nat → TargetOutcome)
    (idxs : List Nat) (st : OrchestratorState) (i : Nat) (h : i ∉ idxs) :
    (runTargets stamp outcomes idxs st).artifacts i = st.artifacts i ∧
    (runTargets stamp outcomes idxs st).temps i = st.temps i := by
  induction idxs generalizing st with
  | nil => exact ⟨rfl, rfl⟩
  | cons j js ih =>
    have hij : i ≠ j := fun hcon => h (hcon ▸ List.mem_cons_self j js)
    have hnotin : i ∉ js := fun hc => h (List.mem_cons_of_mem j hc)
    have hstep := processTarget_other stamp (outcomes j) st j i hij
    have hrest := ih (processTarget stamp (outcomes j) st j) hnotin
    exact ⟨hrest.1.trans hstep.1, hrest.2.trans hstep.2⟩

/-- The loop over `0 … n-1` at any processed index `i`: afterwards the
temp file is gone and the artifact is renewed exactly when target `i`'s
capture and conversion both succeeded, regardless of every other target's
outcome. -/
lemma runTargets_range_at (stamp : Nat) (outcomes : Nat → TargetOutcome)
    (n : Nat) (st : OrchestratorState) (i : Nat) (hi : i < n) :
    (runTargets stamp outcomes (List.range n) st).artifacts i =
      (if renderUrlToImageAsync (outcomes i).capture = true ∧ (outcomes i).convertOk = true
       then some stamp else st.artifacts i) ∧
    (runTargets stamp outcomes (List.range n) st).temps i = false := by
  induction n with
  | zero => omega
  | succ n ih =>
    rw [List.range_succ]
    rw [show runTargets stamp outcomes (List.range n ++ [n]) st =
        runTargets stamp outcomes [n] (runTargets stamp outcomes (List.range n) st) from by
      simp [runTargets, List.foldl_append]]
    by_cases hin : i < n
    · have hlast := processTarget_other stamp (outcomes n)
        (runTargets stamp outcomes (List.range n) st) n i (by omega)
      exact ⟨hlast.1.trans (ih hin).1, hlast.2.trans (ih hin).2⟩
    · have hii : i = n := by omega
      subst hii
      have hpre := runTargets_notMem stamp outcomes (List.range i) st i (by simp)
      have hself := processTarget_self stamp (outcomes i)
        (runTargets stamp outcomes (List.range i) st) i
      refine ⟨?_, hself.1⟩
      rw [show runTargets stamp outcomes [i] (runTargets stamp outcomes (List.range i) st) =
          processTarget stamp (outcomes i) (runTargets stamp outcomes (List.range i) st) i
          from rfl]
      rw [hself.2, hpre.1]

/-- Claim C2: in every render cycle, a target `i` whose capture produced
no temp file or whose conversion failed keeps its previous artifact and
ends with no temp file; a target whose capture and conversion both succeed
gets its artifact renewed, regardless of any other target's failures (so
the loop reaches every remaining target); and an exception anywhere in the
capture sequence is caught inside `renderUrlToImageAsync`, which merely
reports that no temp file was produced. -/
theorem C2_cycle_isolation (pages : List PageConfig) (stamp : Nat)
    (outcomes : Nat → TargetOutcome) (st : OrchestratorState) (i : Nat)
    (hi : i < pages.length) :
    (renderUrlToImageAsync (outcomes i).capture = false ∨ (outcomes i).convertOk = false →
      (renderAndConvertAsync pages stamp outcomes st).artifacts i = st.artifacts i ∧
      (renderAndConvertAsync pages stamp outcomes st).temps i = false) ∧
    (renderUrlToImageAsync (outcomes i).capture = true ∧ (outcomes i).convertOk = true →
      (renderAndConvertAsync pages stamp outcomes st).artifacts i = some stamp ∧
      (renderAndConvertAsync pages stamp outcomes st).temps i = false) ∧
    (∀ e : String, captureSteps (outcomes i).capture = .error e →
      renderUrlToImageAsync (outcomes i).capture = false) := by
  have hrun := runTargets_range_at stamp outcomes pages.length st i hi
  refine ⟨?_, ?_, ?_⟩
  · intro h
    have hcond : ¬(renderUrlToImageAsync (outcomes i).capture = true ∧
        (outcomes i).convertOk = true) := by
      rcases h with h | h <;> simp [h]
    refine ⟨?_, hrun.2⟩
    rw [show (renderAndConvertAsync pages stamp outcomes st).artifacts i =
        (runTargets stamp outcomes (List.range pages.length) st).artifacts i from rfl]
    rw [hrun.1, if_neg hcond]
  · intro h
    refine ⟨?_, hrun.2⟩
    rw [show (renderAndConvertAsync pages stamp outcomes st).artifacts i =
        (runTargets stamp outcomes (List.range pages.length) st).artifacts i from rfl]
    rw [hrun.1, if_pos h]
  · intro e he
    simp [renderUrlToImageAsync, he]

/-- Claim C2 witness: three targets; target 2's navigation times out while
targets 1 and 3 fully succeed.  The cycle leaves target 2's previous
artifact and temp state clean and still renews targets 1 and 3. -/
theorem C2_witness :
    renderUrlToImageAsync (middleFailureOutcomes 1).capture = false ∧
    (renderAndConvertAsync threePagesConfig 3 middleFailureOutcomes threeTargetState).artifacts 1 =
      threeTargetState.artifacts 1 ∧
    (renderAndConvertAsync threePagesConfig 3 middleFailureOutcomes threeTargetState).temps 1 = false ∧
    (renderAndConvertAsync threePagesConfig 3 middleFailureOutcomes threeTargetState).artifacts 0 =
      some 3 ∧
    (renderAndConvertAsync threePagesConfig 3 middleFailureOutcomes threeTargetState).artifacts 2 =
      some 3 :=
  ⟨by decide,
   ((C2_cycle_isolation threePagesConfig 3 middleFailureOutcomes threeTargetState 1
      (by decide)).1 (Or.inl (by decide))).1,
   ((C2_cycle_isolation threePagesConfig 3 middleFailureOutcomes threeTargetState 1
      (by decide)).1 (Or.inl (by decide))).2,
   ((C2_cycle_isolation threePagesConfig 3 middleFailureOutcomes threeTargetState 0
      (by decide)).2.1 ⟨by decide, by decide⟩).1,
   ((C2_cycle_isolation threePagesConfig 3 middleFailureOutcomes threeTargetState 2
      (by decide)).2.1 ⟨by decide, by decide⟩).1⟩

/- ------------------------------------------------------------------ -/
/- Claim C7                                                            -/
/- ------------------------------------------------------------------ -/

/-- Claim C7 counterexample: the file name `a..b.txt` contains no
parent-directory segment, no backslash, is relative, and resolves to a
regular readable file inside the config root — the claim then demands 200
— but the handler answers 403, because index.js line 77 rejects any
occurrence of the substring `..`. -/
theorem C7_counterexample :
    hasParentDirSegment "a..b.txt" = false ∧
    strContainsChar "a..b.txt" '\\' = false ∧
    isAbsolutePath "a..b.txt" = false ∧
    resolvePath CONFIG_DIR "a..b.txt" = "/app/kindle-config/a..b.txt" ∧
    demoConfigTree "/app/kindle-config/a..b.txt" = .file "dots" "t2" ∧
    (handleConfigFileRequest demoConfigTree "a..b.txt").status = 403 := by
  decide

/-- Claim C7 (amended): a sub-path containing the two-character substring
`..` anywhere (not only as a full parent-directory segment), a backslash,
or an absolute path answers 403, as does a resolved path outside the fixed
root; a path inside the root answers 404 when missing or a directory, 500
on another I/O error, and for a readable regular file 200 with the
extension-derived content type and the 5-minute cache header. -/
theorem C7_config_file_serving (fsys : String → FsNode) (p : String) :
    (containsSubstring p ".." = true ∨ strContainsChar p '\\' = true ∨
        isAbsolutePath p = true →
      (handleConfigFileRequest fsys p).status = 403) ∧
    (containsSubstring p ".." = false → strContainsChar p '\\' = false →
      isAbsolutePath p = false →
      pathInsideRoot (resolvePath CONFIG_DIR p) (resolvePath CONFIG_DIR "") = false →
      (handleConfigFileRequest fsys p).status = 403) ∧
    (containsSubstring p ".." = false → strContainsChar p '\\' = false →
      isAbsolutePath p = false →
      pathInsideRoot (resolvePath CONFIG_DIR p) (resolvePath CONFIG_DIR "") = true →
      (fsys (resolvePath CONFIG_DIR p) = .absent →
        (handleConfigFileRequest fsys p).status = 404) ∧
      (fsys (resolvePath CONFIG_DIR p) = .dir →
        (handleConfigFileRequest fsys p).status = 404) ∧
      (fsys (resolvePath CONFIG_DIR p) = .ioError →
        (handleConfigFileRequest fsys p).status = 500) ∧
      (∀ content mtime, fsys (resolvePath CONFIG_DIR p) = .file content mtime →
        handleConfigFileRequest fsys p =
          { status := 200,
            contentType := some (getContentType (lowerString (extnameOf (resolvePath CONFIG_DIR p)))),
            contentLength := some content.length,
            lastModified := some mtime,
            cacheControl := some "public, max-age=300" })) := by
  refine ⟨?_, ?_, ?_⟩
  · intro h
    have hb : (containsSubstring p ".." || strContainsChar p '\\' || isAbsolutePath p) = true := by
      rcases h with h | h | h <;> simp [h]
    simp [handleConfigFileRequest, hb]
  · intro h1 h2 h3 hin
    have hb : (containsSubstring p ".." || strContainsChar p '\\' || isAbsolutePath p) = false := by
      simp [h1, h2, h3]
    simp [handleConfigFileRequest, hb, hin]
  · intro h1 h2 h3 hin
    have hb : (containsSubstring p ".." || strContainsChar p '\\' || isAbsolutePath p) = false := by
      simp [h1, h2, h3]
    refine ⟨?_, ?_, ?_, ?_⟩
    · intro hfs
      simp [handleConfigFileRequest, hb, hin, hfs]
    · intro hfs
      simp [handleConfigFileRequest, hb, hin, hfs]
    · intro hfs
      simp [handleConfigFileRequest, hb, hin, hfs]
    · intro content mtime hfs
      simp [handleConfigFileRequest, hb, hin, hfs]

/-- Claim C7 witness: `readme.txt` inside the config root is served with
200, `Content-Type: text/plain` and the cache header, while the traversal
attempt `../../etc/passwd` answers 403. -/
theorem C7_witness :
    handleConfigFileRequest demoConfigTree "readme.txt" =
      { status := 200, contentType := some "text/plain", contentLength := some 12,
        lastModified := some "t1", cacheControl := some "public, max-age=300" } ∧
    (handleConfigFileRequest demoConfigTree "../../etc/passwd").status = 403 :=
  ⟨(((C7_config_file_serving demoConfigTree "readme.txt").2.2 (by decide) (by decide)
      (by decide) (by decide)).2.2.2 "hello kindle" "t1" (by decide)).trans (by decide),
   (C7_config_file_serving demoConfigTree "../../etc/passwd").1 (Or.inl (by decide))⟩

end HassKindle
